import Mathlib

/-!
Verification of the `bandit-issues.py` fixture (src/test-fixtures/bandit-issues.py).

The repository consists of a single Python fixture of intentionally insecure
code snippets, each labeled by a comment naming the Bandit rule it triggers.
This file embeds the fixture at three levels of detail and proves the frozen
claims about it:

1. `banditIssuesLines` — the raw text of the file, line by line;
2. a syntactic layer (`PyStmt`, `PyFunc`, `PyEntry`, `banditEntries`) — the
   top-level structure of the module: labeled comments, imports, module-level
   assignments, and function definitions with their statement skeletons;
3. a semantic layer — executable Lean translations of the functions the
   claims reason about (`assert_usage`, `sql_injection`, `connect_db`,
   `continue_on_error`), plus an effect-trace model (`Effect`,
   `<name>_effects`) recording the externally visible calls each function
   makes when executed.

Python exceptions are modelled by `PyExc` (subclasses of `Exception`; the
fixture never raises or catches `BaseException`-only exceptions). Python
`None` is modelled by `Unit` (as a return value) or `Option.none` (as a
first-class value).
-/

namespace VibeCheck

/-- The text of src/test-fixtures/bandit-issues.py, one entry per line
(the final line of the file has no trailing newline). -/
def banditIssuesLines : List String := [
  "# Bandit test file - intentionally dirty code for security scanning",
  "# This file triggers various Bandit security warnings",
  "# WARNING: This is intentionally insecure code for testing purposes only!",
  "",
  "import os",
  "import subprocess",
  "import pickle",
  "import hashlib",
  "import tempfile",
  "import random",
  "import ssl",
  "",
  "",
  "# B101: Assert used - assert statements are removed with compiling to optimized code",
  "def assert_usage(user_input):",
  "    assert user_input is not None, \"Input required\"",
  "    return user_input",
  "",
  "",
  "# B102: exec_used - Use of exec detected",
  "def exec_usage(code_string):",
  "    exec(code_string)",
  "",
  "",
  "# B103: set_bad_file_permissions",
  "def bad_permissions():",
  "    os.chmod(\"/tmp/secret.txt\", 0o777)",
  "",
  "",
  "# B104: hardcoded_bind_all_interfaces",
  "def bind_all_interfaces():",
  "    import socket",
  "    s = socket.socket()",
  "    s.bind((\"0.0.0.0\", 8080))",
  "",
  "",
  "# B105, B106, B107: hardcoded_password_string/funcarg/default",
  "PASSWORD = \"super_secret_password123\"",
  "API_KEY = \"sk-1234567890abcdef\"",
  "",
  "",
  "def connect_db(password=\"admin123\"):",
  "    return f\"connecting with {password}\"",
  "",
  "",
  "def login(user, passwd=\"default_pass\"):",
  "    pass",
  "",
  "",
  "# B108: hardcoded_tmp_directory",
  "def use_tmp():",
  "    with open(\"/tmp/data.txt\", \"w\") as f:",
  "        f.write(\"sensitive data\")",
  "",
  "",
  "# B110: try_except_pass - Try/except with pass, ignoring errors",
  "def ignore_errors():",
  "    try:",
  "        risky_operation()",
  "    except Exception:",
  "        pass",
  "",
  "",
  "def risky_operation():",
  "    pass",
  "",
  "",
  "# B112: try_except_continue",
  "def continue_on_error(items):",
  "    for item in items:",
  "        try:",
  "            process(item)",
  "        except Exception:",
  "            continue",
  "",
  "",
  "def process(item):",
  "    pass",
  "",
  "",
  "# B201: flask_debug_true (simulated)",
  "# B301: pickle - Pickle usage detected",
  "def unsafe_pickle():",
  "    data = pickle.loads(b\"cos\\nsystem\\n(S\x27echo hacked\x27\\ntR.\")",
  "",
  "",
  "# B303: md5 - Use of insecure MD5 hash function",
  "def weak_hash(data):",
  "    return hashlib.md5(data.encode()).hexdigest()",
  "",
  "",
  "# B304: des - Use of insecure cipher",
  "def weak_cipher():",
  "    from Crypto.Cipher import DES",
  "    key = b\x2712345678\x27",
  "    cipher = DES.new(key, DES.MODE_ECB)",
  "",
  "",
  "# B305: cipher_modes - Use of insecure cipher mode",
  "def insecure_cipher_mode():",
  "    from Crypto.Cipher import AES",
  "    key = b\x27sixteen byte key\x27",
  "    cipher = AES.new(key, AES.MODE_ECB)",
  "",
  "",
  "# B306: mktemp_q - Use of insecure mktemp",
  "def insecure_temp():",
  "    filename = tempfile.mktemp()",
  "    return filename",
  "",
  "",
  "# B307: eval - Use of eval",
  "def eval_usage(user_input):",
  "    return eval(user_input)",
  "",
  "",
  "# B308: mark_safe (Django) - simulated",
  "# B310: urllib_urlopen - Audit url open for permitted schemes",
  "def url_open(url):",
  "    import urllib.request",
  "    return urllib.request.urlopen(url)",
  "",
  "",
  "# B311: random - Use of pseudo-random generator for security",
  "def insecure_random():",
  "    token = random.randint(0, 999999)",
  "    return f\"token_{token}\"",
  "",
  "",
  "# B312: telnetlib - Telnet-related functions",
  "def use_telnet():",
  "    import telnetlib",
  "    tn = telnetlib.Telnet(\"example.com\")",
  "",
  "",
  "# B320, B410: xml - XML parsing vulnerable to XXE attacks",
  "def parse_xml(xml_string):",
  "    import xml.etree.ElementTree as ET",
  "    return ET.fromstring(xml_string)",
  "",
  "",
  "# B321: ftplib - FTP-related functions",
  "def use_ftp():",
  "    import ftplib",
  "    ftp = ftplib.FTP(\"ftp.example.com\")",
  "",
  "",
  "# B323: unverified_context - SSL certificate verification disabled",
  "def insecure_ssl():",
  "    context = ssl._create_unverified_context()",
  "    return context",
  "",
  "",
  "# B324: hashlib_new_insecure_functions - Insecure hash functions",
  "def more_weak_hashes(data):",
  "    h1 = hashlib.new(\x27md5\x27)",
  "    h2 = hashlib.new(\x27sha1\x27)",
  "    h1.update(data.encode())",
  "    return h1.hexdigest()",
  "",
  "",
  "# B501: request_with_no_cert_validation",
  "def insecure_request():",
  "    import requests",
  "    response = requests.get(\"https://example.com\", verify=False)",
  "",
  "",
  "# B506: yaml_load - Use of unsafe YAML load",
  "def unsafe_yaml(yaml_string):",
  "    import yaml",
  "    return yaml.load(yaml_string)",
  "",
  "",
  "# B601: paramiko_calls - Paramiko SSH calls",
  "def ssh_command(host, cmd):",
  "    import paramiko",
  "    client = paramiko.SSHClient()",
  "    client.set_missing_host_key_policy(paramiko.AutoAddPolicy())",
  "    client.connect(host, username=\"root\", password=\"toor\")",
  "",
  "",
  "# B602: subprocess_popen_with_shell_equals_true",
  "def shell_injection(user_input):",
  "    subprocess.Popen(f\"echo {user_input}\", shell=True)",
  "",
  "",
  "# B603: subprocess_without_shell_equals_true (still flagged for audit)",
  "def subprocess_call(cmd):",
  "    subprocess.call(cmd)",
  "",
  "",
  "# B604: any_other_function_with_shell_equals_true",
  "def os_system_call(cmd):",
  "    os.system(cmd)",
  "",
  "",
  "# B605: start_process_with_a_shell",
  "def popen_shell(cmd):",
  "    os.popen(cmd)",
  "",
  "",
  "# B607: start_process_with_partial_path",
  "def partial_path_exec():",
  "    subprocess.call([\"python\", \"-c\", \"print(\x27hello\x27)\"])",
  "",
  "",
  "# B608: hardcoded_sql_expressions - SQL injection",
  "def sql_injection(user_id):",
  "    query = \"SELECT * FROM users WHERE id = \" + user_id",
  "    return query",
  "",
  "",
  "# B609: linux_commands_wildcard_injection",
  "def wildcard_injection():",
  "    subprocess.call(\"tar cf archive.tar *\", shell=True)",
  "",
  "",
  "# B610, B611: django_extra_used, django_rawsql_used - simulated",
  "# B701: jinja2_autoescape_false - Jinja2 templates with autoescape disabled",
  "def jinja_template():",
  "    from jinja2 import Environment",
  "    env = Environment(autoescape=False)",
  "",
  "",
  "# B702: use_of_mako_templates - Mako templates (no autoescape)",
  "def mako_template():",
  "    from mako.template import Template",
  "    t = Template(\"<html>${user_input}</html>\")"
]

/-- A Python statement, at the level of detail the fixture needs. Atomic
statements carry the source text of their expressions as strings; compound
statements (`try`/`for`/`with`) carry their nested statement lists. The
fixture contains no `global` statement, but the constructor is present so
that scanning for one is meaningful. -/
inductive PyStmt where
  | exprStmt (code : String)
  | assign (target : String) (value : String)
  | ret (value : String)
  | assertStmt (cond : String) (msg : String)
  | importStmt (modName : String)
  | fromImport (modName : String) (names : String)
  | passStmt
  | continueStmt
  | globalStmt (names : List String)
  | tryExcept (body : List PyStmt) (excClass : String) (handler : List PyStmt)
  | forLoop (var : String) (iter : String) (body : List PyStmt)
  | withBlock (ctx : String) (var : String) (body : List PyStmt)

/-- A Python function definition: name, parameters (each with its optional
default-value source text), and body. -/
structure PyFunc where
  name : String
  params : List (String × Option String)
  body : List PyStmt

/-- A top-level entry of the fixture module: a comment line (recording the
Bandit rule IDs it names, `[]` for a plain comment), a module-level import,
a function definition, or a module-level assignment. -/
inductive PyEntry where
  | comment (ruleIds : List String)
  | importE (modName : String)
  | defE (fn : PyFunc)
  | assignE (target : String) (value : String)

set_option maxHeartbeats 2000000 in
/-- The top-level structure of src/test-fixtures/bandit-issues.py, in file
order: every comment line (with the Bandit rule IDs it names), every
module-level import and assignment, and every function definition with its
statement skeleton. -/
def banditEntries : List PyEntry := [
  .comment [],
  .comment [],
  .comment [],
  .importE "os",
  .importE "subprocess",
  .importE "pickle",
  .importE "hashlib",
  .importE "tempfile",
  .importE "random",
  .importE "ssl",
  .comment ["B101"],
  .defE ⟨"assert_usage", [("user_input", none)],
    [.assertStmt "user_input is not None" "Input required",
     .ret "user_input"]⟩,
  .comment ["B102"],
  .defE ⟨"exec_usage", [("code_string", none)],
    [.exprStmt "exec(code_string)"]⟩,
  .comment ["B103"],
  .defE ⟨"bad_permissions", [],
    [.exprStmt "os.chmod(\"/tmp/secret.txt\", 0o777)"]⟩,
  .comment ["B104"],
  .defE ⟨"bind_all_interfaces", [],
    [.importStmt "socket",
     .assign "s" "socket.socket()",
     .exprStmt "s.bind((\"0.0.0.0\", 8080))"]⟩,
  .comment ["B105", "B106", "B107"],
  .assignE "PASSWORD" "\"super_secret_password123\"",
  .assignE "API_KEY" "\"sk-1234567890abcdef\"",
  .defE ⟨"connect_db", [("password", some "\"admin123\"")],
    [.ret "f\"connecting with {password}\""]⟩,
  .defE ⟨"login", [("user", none), ("passwd", some "\"default_pass\"")],
    [.passStmt]⟩,
  .comment ["B108"],
  .defE ⟨"use_tmp", [],
    [.withBlock "open(\"/tmp/data.txt\", \"w\")" "f"
      [.exprStmt "f.write(\"sensitive data\")"]]⟩,
  .comment ["B110"],
  .defE ⟨"ignore_errors", [],
    [.tryExcept [.exprStmt "risky_operation()"] "Exception" [.passStmt]]⟩,
  .defE ⟨"risky_operation", [], [.passStmt]⟩,
  .comment ["B112"],
  .defE ⟨"continue_on_error", [("items", none)],
    [.forLoop "item" "items"
      [.tryExcept [.exprStmt "process(item)"] "Exception" [.continueStmt]]]⟩,
  .defE ⟨"process", [("item", none)], [.passStmt]⟩,
  .comment ["B201"],
  .comment ["B301"],
  .defE ⟨"unsafe_pickle", [],
    [.assign "data" "pickle.loads(b\"cos\\nsystem\\n(S\x27echo hacked\x27\\ntR.\")"]⟩,
  .comment ["B303"],
  .defE ⟨"weak_hash", [("data", none)],
    [.ret "hashlib.md5(data.encode()).hexdigest()"]⟩,
  .comment ["B304"],
  .defE ⟨"weak_cipher", [],
    [.fromImport "Crypto.Cipher" "DES",
     .assign "key" "b\x2712345678\x27",
     .assign "cipher" "DES.new(key, DES.MODE_ECB)"]⟩,
  .comment ["B305"],
  .defE ⟨"insecure_cipher_mode", [],
    [.fromImport "Crypto.Cipher" "AES",
     .assign "key" "b\x27sixteen byte key\x27",
     .assign "cipher" "AES.new(key, AES.MODE_ECB)"]⟩,
  .comment ["B306"],
  .defE ⟨"insecure_temp", [],
    [.assign "filename" "tempfile.mktemp()",
     .ret "filename"]⟩,
  .comment ["B307"],
  .defE ⟨"eval_usage", [("user_input", none)],
    [.ret "eval(user_input)"]⟩,
  .comment ["B308"],
  .comment ["B310"],
  .defE ⟨"url_open", [("url", none)],
    [.importStmt "urllib.request",
     .ret "urllib.request.urlopen(url)"]⟩,
  .comment ["B311"],
  .defE ⟨"insecure_random", [],
    [.assign "token" "random.randint(0, 999999)",
     .ret "f\"token_{token}\""]⟩,
  .comment ["B312"],
  .defE ⟨"use_telnet", [],
    [.importStmt "telnetlib",
     .assign "tn" "telnetlib.Telnet(\"example.com\")"]⟩,
  .comment ["B320", "B410"],
  .defE ⟨"parse_xml", [("xml_string", none)],
    [.importStmt "xml.etree.ElementTree as ET",
     .ret "ET.fromstring(xml_string)"]⟩,
  .comment ["B321"],
  .defE ⟨"use_ftp", [],
    [.importStmt "ftplib",
     .assign "ftp" "ftplib.FTP(\"ftp.example.com\")"]⟩,
  .comment ["B323"],
  .defE ⟨"insecure_ssl", [],
    [.assign "context" "ssl._create_unverified_context()",
     .ret "context"]⟩,
  .comment ["B324"],
  .defE ⟨"more_weak_hashes", [("data", none)],
    [.assign "h1" "hashlib.new(\x27md5\x27)",
     .assign "h2" "hashlib.new(\x27sha1\x27)",
     .exprStmt "h1.update(data.encode())",
     .ret "h1.hexdigest()"]⟩,
  .comment ["B501"],
  .defE ⟨"insecure_request", [],
    [.importStmt "requests",
     .assign "response" "requests.get(\"https://example.com\", verify=False)"]⟩,
  .comment ["B506"],
  .defE ⟨"unsafe_yaml", [("yaml_string", none)],
    [.importStmt "yaml",
     .ret "yaml.load(yaml_string)"]⟩,
  .comment ["B601"],
  .defE ⟨"ssh_command", [("host", none), ("cmd", none)],
    [.importStmt "paramiko",
     .assign "client" "paramiko.SSHClient()",
     .exprStmt "client.set_missing_host_key_policy(paramiko.AutoAddPolicy())",
     .exprStmt "client.connect(host, username=\"root\", password=\"toor\")"]⟩,
  .comment ["B602"],
  .defE ⟨"shell_injection", [("user_input", none)],
    [.exprStmt "subprocess.Popen(f\"echo {user_input}\", shell=True)"]⟩,
  .comment ["B603"],
  .defE ⟨"subprocess_call", [("cmd", none)],
    [.exprStmt "subprocess.call(cmd)"]⟩,
  .comment ["B604"],
  .defE ⟨"os_system_call", [("cmd", none)],
    [.exprStmt "os.system(cmd)"]⟩,
  .comment ["B605"],
  .defE ⟨"popen_shell", [("cmd", none)],
    [.exprStmt "os.popen(cmd)"]⟩,
  .comment ["B607"],
  .defE ⟨"partial_path_exec", [],
    [.exprStmt "subprocess.call([\"python\", \"-c\", \"print(\x27hello\x27)\"])"]⟩,
  .comment ["B608"],
  .defE ⟨"sql_injection", [("user_id", none)],
    [.assign "query" "\"SELECT * FROM users WHERE id = \" + user_id",
     .ret "query"]⟩,
  .comment ["B609"],
  .defE ⟨"wildcard_injection", [],
    [.exprStmt "subprocess.call(\"tar cf archive.tar *\", shell=True)"]⟩,
  .comment ["B610", "B611"],
  .comment ["B701"],
  .defE ⟨"jinja_template", [],
    [.fromImport "jinja2" "Environment",
     .assign "env" "Environment(autoescape=False)"]⟩,
  .comment ["B702"],
  .defE ⟨"mako_template", [],
    [.fromImport "mako.template" "Template",
     .assign "t" "Template(\"<html>${user_input}</html>\")"]⟩
]

/-- The function definitions of the fixture, in file order. -/
def banditFuncs : List PyFunc :=
  banditEntries.filterMap fun e =>
    match e with
    | .defE f => some f
    | _ => none

/-- Fuel-bounded check that a statement contains a `try`/`except` handler
(fuel bounds the nesting depth; the fixture nests at most three deep). -/
def stmtHasTry : Nat → PyStmt → Bool
  | 0, _ => false
  | _ + 1, .tryExcept _ _ _ => true
  | fuel + 1, .forLoop _ _ body => body.any (stmtHasTry fuel)
  | fuel + 1, .withBlock _ _ body => body.any (stmtHasTry fuel)
  | _ + 1, _ => false

/-- A function body contains a `try`/`except` handler somewhere. -/
def stmtsHaveTry (body : List PyStmt) : Bool :=
  body.any (stmtHasTry 100)

/-- Fuel-bounded check that a statement contains a `global` declaration,
the only way a Python function can rebind a module-level name. -/
def stmtHasGlobal : Nat → PyStmt → Bool
  | 0, _ => false
  | _ + 1, .globalStmt _ => true
  | fuel + 1, .tryExcept body _ handler =>
      body.any (stmtHasGlobal fuel) || handler.any (stmtHasGlobal fuel)
  | fuel + 1, .forLoop _ _ body => body.any (stmtHasGlobal fuel)
  | fuel + 1, .withBlock _ _ body => body.any (stmtHasGlobal fuel)
  | _ + 1, _ => false

/-- A function body contains a `global` declaration somewhere. -/
def stmtsHaveGlobal (body : List PyStmt) : Bool :=
  body.any (stmtHasGlobal 100)

/-- A block of the fixture: one run of adjacent Bandit-rule-ID comment
lines together with the code constructs (function definitions and
module-level assignments, by name) that follow it, up to the next
rule-ID comment. -/
structure RuleBlock where
  ruleIds : List String
  items : List String

/-- The name a top-level entry contributes as a code construct, if any. -/
def entryItemName : PyEntry → Option String
  | .defE f => some f.name
  | .assignE t _ => some t
  | _ => none

/-- Folds the entry list into rule blocks: a rule-ID comment opens a new
block (or extends the current one when no construct has intervened);
definitions and assignments join the current block; plain comments and
imports are skipped. -/
def collectBlocksAux : Option RuleBlock → List PyEntry → List RuleBlock
  | cur, [] => cur.toList
  | cur, .comment ids :: rest =>
      if ids.isEmpty then collectBlocksAux cur rest
      else
        match cur with
        | none => collectBlocksAux (some ⟨ids, []⟩) rest
        | some b =>
            if b.items.isEmpty then
              collectBlocksAux (some ⟨b.ruleIds ++ ids, []⟩) rest
            else
              b :: collectBlocksAux (some ⟨ids, []⟩) rest
  | cur, e :: rest =>
      match entryItemName e with
      | some n =>
          match cur with
          | none => collectBlocksAux none rest
          | some b => collectBlocksAux (some ⟨b.ruleIds, b.items ++ [n]⟩) rest
      | none => collectBlocksAux cur rest

/-- The labeled blocks of the fixture. -/
def banditBlocks : List RuleBlock :=
  collectBlocksAux none banditEntries

/-- An externally visible call made by a fixture function when executed:
file-system operations, socket operations, process spawns, dynamic code
execution, and network client calls. `threadStart` is never produced by
any fixture function; it is present so that scanning a trace for
concurrency is meaningful. -/
inductive Effect where
  | fileOpen (path mode : String)
  | fileWrite (path data : String)
  | osChmod (path : String) (mode : Nat)
  | socketNew
  | socketBind (host : String) (port : Nat)
  | mktemp
  | subprocessPopen (cmd : String) (shell : Bool)
  | subprocessCallStr (cmd : String) (shell : Bool)
  | subprocessCallArgs (args : List String)
  | osSystem (cmd : String)
  | osPopen (cmd : String)
  | execDyn (code : String)
  | evalDyn (code : String)
  | pickleLoads (payload : String)
  | urlOpen (url : String)
  | randint (lo hi : Nat)
  | telnetConnect (host : String)
  | ftpConnect (host : String)
  | httpGet (url : String) (verify : Bool)
  | sshConnect (host user pw : String)
  | threadStart

/-- Effects of `assert_usage` (lines 15-17): pure, no external calls. -/
def assert_usage_effects : List Effect := []

/-- Effects of `exec_usage` (lines 21-22): one `exec` of its argument. -/
def exec_usage_effects (code_string : String) : List Effect :=
  [.execDyn code_string]

/-- Effects of `bad_permissions` (lines 26-27): one `os.chmod`. -/
def bad_permissions_effects : List Effect :=
  [.osChmod "/tmp/secret.txt" 0o777]

/-- Effects of `bind_all_interfaces` (lines 31-34): create a socket, then
bind it to `("0.0.0.0", 8080)`. -/
def bind_all_interfaces_effects : List Effect :=
  [.socketNew, .socketBind "0.0.0.0" 8080]

/-- Effects of `connect_db` (lines 42-43): pure string formatting. -/
def connect_db_effects : List Effect := []

/-- Effects of `login` (lines 46-47): `pass`. -/
def login_effects : List Effect := []

/-- Effects of `use_tmp` (lines 51-53): open `/tmp/data.txt` for writing
and write `"sensitive data"` to it. -/
def use_tmp_effects : List Effect :=
  [.fileOpen "/tmp/data.txt" "w", .fileWrite "/tmp/data.txt" "sensitive data"]

/-- Effects of `ignore_errors` (lines 57-61): calls `risky_operation`,
which is `pass`. -/
def ignore_errors_effects : List Effect := []

/-- Effects of `risky_operation` (lines 64-65): `pass`. -/
def risky_operation_effects : List Effect := []

/-- Effects of `continue_on_error` (lines 69-74) with the module-level
`process` (lines 77-78, `pass`): none. -/
def continue_on_error_effects : List Effect := []

/-- Effects of `process` (lines 77-78): `pass`. -/
def process_effects : List Effect := []

/-- Effects of `unsafe_pickle` (lines 83-84): one `pickle.loads` of the
hard-coded payload. -/
def unsafe_pickle_effects : List Effect :=
  [.pickleLoads "cos\nsystem\n(S\x27echo hacked\x27\ntR."]

/-- Effects of `weak_hash` (lines 88-89): in-memory hashing only. -/
def weak_hash_effects : List Effect := []

/-- Effects of `weak_cipher` (lines 93-96): in-memory cipher object. -/
def weak_cipher_effects : List Effect := []

/-- Effects of `insecure_cipher_mode` (lines 100-103): in-memory cipher
object. -/
def insecure_cipher_mode_effects : List Effect := []

/-- Effects of `insecure_temp` (lines 107-109): one `tempfile.mktemp`. -/
def insecure_temp_effects : List Effect := [.mktemp]

/-- Effects of `eval_usage` (lines 113-114): one `eval` of its argument. -/
def eval_usage_effects (user_input : String) : List Effect :=
  [.evalDyn user_input]

/-- Effects of `url_open` (lines 119-121): one `urllib.request.urlopen`. -/
def url_open_effects (url : String) : List Effect := [.urlOpen url]

/-- Effects of `insecure_random` (lines 125-127): one `random.randint`. -/
def insecure_random_effects : List Effect := [.randint 0 999999]

/-- Effects of `use_telnet` (lines 131-133): one Telnet connection. -/
def use_telnet_effects : List Effect := [.telnetConnect "example.com"]

/-- Effects of `parse_xml` (lines 137-139): in-memory parsing only. -/
def parse_xml_effects : List Effect := []

/-- Effects of `use_ftp` (lines 143-145): one FTP connection. -/
def use_ftp_effects : List Effect := [.ftpConnect "ftp.example.com"]

/-- Effects of `insecure_ssl` (lines 149-151): builds an SSL context. -/
def insecure_ssl_effects : List Effect := []

/-- Effects of `more_weak_hashes` (lines 155-159): in-memory hashing. -/
def more_weak_hashes_effects : List Effect := []

/-- Effects of `insecure_request` (lines 163-165): one HTTP GET with
certificate verification disabled. -/
def insecure_request_effects : List Effect :=
  [.httpGet "https://example.com" false]

/-- Effects of `unsafe_yaml` (lines 169-171): in-memory parsing only. -/
def unsafe_yaml_effects : List Effect := []

/-- Effects of `ssh_command` (lines 175-179): one SSH connection with the
hard-coded credentials. -/
def ssh_command_effects (host : String) : List Effect :=
  [.sshConnect host "root" "toor"]

/-- Effects of `shell_injection` (lines 183-184): one `subprocess.Popen`
with `shell=True` on the interpolated command. -/
def shell_injection_effects (user_input : String) : List Effect :=
  [.subprocessPopen ("echo " ++ user_input) true]

/-- Effects of `subprocess_call` (lines 188-189): one `subprocess.call`. -/
def subprocess_call_effects (cmd : String) : List Effect :=
  [.subprocessCallStr cmd false]

/-- Effects of `os_system_call` (lines 193-194): one `os.system`. -/
def os_system_call_effects (cmd : String) : List Effect := [.osSystem cmd]

/-- Effects of `popen_shell` (lines 198-199): one `os.popen`. -/
def popen_shell_effects (cmd : String) : List Effect := [.osPopen cmd]

/-- Effects of `partial_path_exec` (lines 203-204): one `subprocess.call`
with an argument list. -/
def partial_path_exec_effects : List Effect :=
  [.subprocessCallArgs ["python", "-c", "print(\x27hello\x27)"]]

/-- Effects of `sql_injection` (lines 208-210): pure string building. -/
def sql_injection_effects : List Effect := []

/-- Effects of `wildcard_injection` (lines 214-215): one `subprocess.call`
with `shell=True`. -/
def wildcard_injection_effects : List Effect :=
  [.subprocessCallStr "tar cf archive.tar *" true]

/-- Effects of `jinja_template` (lines 220-222): builds an environment. -/
def jinja_template_effects : List Effect := []

/-- Effects of `mako_template` (lines 226-228): builds a template. -/
def mako_template_effects : List Effect := []

/-- An effect that leaves durable data or metadata on the file system:
a file write or a permission change. -/
def persists : Effect → Bool
  | .fileWrite _ _ => true
  | .osChmod _ _ => true
  | _ => false

/-- The effect is a call into the `tempfile` module. -/
def tempfileCall : Effect → Bool
  | .mktemp => true
  | _ => false

/-- The effect is a socket call (creating a socket or binding one). -/
def socketCall : Effect → Bool
  | .socketNew => true
  | .socketBind _ _ => true
  | _ => false

/-- The effect is a call into the `subprocess` module. -/
def subprocessCall : Effect → Bool
  | .subprocessPopen _ _ => true
  | .subprocessCallStr _ _ => true
  | .subprocessCallArgs _ => true
  | _ => false

/-- The effect is a tempfile, socket, or subprocess call. -/
def tssCall (e : Effect) : Bool :=
  tempfileCall e || socketCall e || subprocessCall e

/-- The effect starts a thread (never produced by the fixture). -/
def spawnsThread : Effect → Bool
  | .threadStart => true
  | _ => false

/-- A trace is single-shot: at most one tempfile/socket/subprocess call
and no concurrent execution. -/
def singleShot (t : List Effect) : Bool :=
  decide ((t.filter tssCall).length ≤ 1) && t.all fun e => !spawnsThread e

/-- A Python exception of class `Exception` (the only class the fixture
raises or catches). -/
inductive PyExc where
  | assertionError (msg : String)
  | exception (msg : String)
deriving DecidableEq

/-- Module-level constant `PASSWORD` (line 38). -/
def PASSWORD : String := "super_secret_password123"

/-- Module-level constant `API_KEY` (line 39). -/
def API_KEY : String := "sk-1234567890abcdef"

/-- Translation of `assert_usage` (lines 15-17): `assert user_input is not
None, "Input required"`, then `return user_input`. `none` models Python
`None`; a failed `assert` raises `AssertionError` with the given message. -/
def assert_usage {α : Type} (user_input : Option α) : Except PyExc (Option α) :=
  if user_input.isNone then .error (.assertionError "Input required")
  else .ok user_input

/-- Translation of `connect_db` (lines 42-43): returns
`f"connecting with {password}"`. -/
def connect_db (password : String) : String :=
  "connecting with " ++ password

/-- Default value of the `password` parameter of `connect_db` (line 42). -/
def connect_db_default_password : String := "admin123"

/-- Translation of `sql_injection` (lines 208-210): builds the query by
raw string concatenation and returns it. -/
def sql_injection (user_id : String) : String :=
  let query := "SELECT * FROM users WHERE id = " ++ user_id
  query

/-- Translation of `continue_on_error` (lines 69-74). Python resolves
`process` from the module namespace at call time, so the callee is a
parameter; the module-level `process` (lines 77-78) is `pass`. The result
pairs the list of items on which `process` was attempted (in order) with
the return value: the loop body runs `process(item)` inside
`try ... except Exception: continue`, and the function falls off the end,
returning `None` (modelled as `Except.ok ()`). -/
def continue_on_error {α β : Type} (process : α → Except PyExc β) :
    List α → List α × Except PyExc Unit
  | [] => ([], .ok ())
  | item :: rest =>
      match process item with
      | .ok _ =>
          let r := continue_on_error process rest
          (item :: r.1, r.2)
      | .error _ =>
          let r := continue_on_error process rest
          (item :: r.1, r.2)

/-- C1 counterexample: the claim says every function's return value is
independent of its arguments, but `sql_injection` returns different
strings for the concrete inputs `"1"` and `"2"`. -/
theorem c1_counterexample : sql_injection "1" ≠ sql_injection "2" := by
  decide

/-- C1 (amended): not every function of the fixture returns a constant
value; in particular the return values of `sql_injection` and `connect_db`
depend on their arguments. -/
theorem c1_some_returns_depend_on_arguments :
    (∃ x y : String, sql_injection x ≠ sql_injection y) ∧
    (∃ x y : String, connect_db x ≠ connect_db y) :=
  ⟨⟨"1", "2", by decide⟩, ⟨"a", "b", by decide⟩⟩

/-- C2 counterexample: the claim says only the try/except-with-pass snippet
(`ignore_errors`) catches exceptions, but two functions of the fixture
contain an except handler: `ignore_errors` and `continue_on_error`. -/
theorem c2_counterexample :
    (banditFuncs.countP fun f => stmtsHaveTry f.body) = 2 ∧
    (banditFuncs.filter fun f => stmtsHaveTry f.body).map PyFunc.name
      = ["ignore_errors", "continue_on_error"] :=
  ⟨rfl, rfl⟩

/-- C2 (amended): exactly two functions of the fixture catch exceptions,
`ignore_errors` (try/except-pass) and `continue_on_error`
(try/except-continue); no other function contains an except handler. -/
theorem c2_exactly_two_functions_catch :
    banditFuncs.all (fun f =>
      stmtsHaveTry f.body
        == (f.name == "ignore_errors" || f.name == "continue_on_error"))
      = true :=
  rfl

/-- C3 counterexample: the claim says no function leaves data written to a
file, but executing `use_tmp` writes `"sensitive data"` to
`/tmp/data.txt`. -/
theorem c3_counterexample :
    use_tmp_effects
      = [.fileOpen "/tmp/data.txt" "w",
         .fileWrite "/tmp/data.txt" "sensitive data"] ∧
    use_tmp_effects.any persists = true :=
  ⟨rfl, rfl⟩

/-- C3 (amended): no function of the fixture creates persisted state
except `use_tmp`, which writes data to `/tmp/data.txt`, and
`bad_permissions`, which durably changes the permission bits of
`/tmp/secret.txt`; every other function leaves nothing written to a file
or durable store. -/
theorem c3_only_two_functions_persist :
    use_tmp_effects.any persists = true ∧
    bad_permissions_effects.any persists = true ∧
    assert_usage_effects.all (fun e => !persists e) = true ∧
    (∀ c : String, (exec_usage_effects c).all (fun e => !persists e) = true) ∧
    bind_all_interfaces_effects.all (fun e => !persists e) = true ∧
    connect_db_effects.all (fun e => !persists e) = true ∧
    login_effects.all (fun e => !persists e) = true ∧
    ignore_errors_effects.all (fun e => !persists e) = true ∧
    risky_operation_effects.all (fun e => !persists e) = true ∧
    continue_on_error_effects.all (fun e => !persists e) = true ∧
    process_effects.all (fun e => !persists e) = true ∧
    unsafe_pickle_effects.all (fun e => !persists e) = true ∧
    weak_hash_effects.all (fun e => !persists e) = true ∧
    weak_cipher_effects.all (fun e => !persists e) = true ∧
    insecure_cipher_mode_effects.all (fun e => !persists e) = true ∧
    insecure_temp_effects.all (fun e => !persists e) = true ∧
    (∀ u : String, (eval_usage_effects u).all (fun e => !persists e) = true) ∧
    (∀ u : String, (url_open_effects u).all (fun e => !persists e) = true) ∧
    insecure_random_effects.all (fun e => !persists e) = true ∧
    use_telnet_effects.all (fun e => !persists e) = true ∧
    parse_xml_effects.all (fun e => !persists e) = true ∧
    use_ftp_effects.all (fun e => !persists e) = true ∧
    insecure_ssl_effects.all (fun e => !persists e) = true ∧
    more_weak_hashes_effects.all (fun e => !persists e) = true ∧
    insecure_request_effects.all (fun e => !persists e) = true ∧
    unsafe_yaml_effects.all (fun e => !persists e) = true ∧
    (∀ h : String, (ssh_command_effects h).all (fun e => !persists e) = true) ∧
    (∀ u : String,
      (shell_injection_effects u).all (fun e => !persists e) = true) ∧
    (∀ c : String,
      (subprocess_call_effects c).all (fun e => !persists e) = true) ∧
    (∀ c : String,
      (os_system_call_effects c).all (fun e => !persists e) = true) ∧
    (∀ c : String, (popen_shell_effects c).all (fun e => !persists e) = true) ∧
    partial_path_exec_effects.all (fun e => !persists e) = true ∧
    sql_injection_effects.all (fun e => !persists e) = true ∧
    wildcard_injection_effects.all (fun e => !persists e) = true ∧
    jinja_template_effects.all (fun e => !persists e) = true ∧
    mako_template_effects.all (fun e => !persists e) = true :=
  ⟨rfl, rfl, rfl, fun _ => rfl, rfl, rfl, rfl, rfl, rfl, rfl, rfl, rfl, rfl,
   rfl, rfl, rfl, fun _ => rfl, fun _ => rfl, rfl, rfl, rfl, rfl, rfl, rfl,
   rfl, rfl, fun _ => rfl, fun _ => rfl, fun _ => rfl, fun _ => rfl,
   fun _ => rfl, rfl, rfl, rfl, rfl, rfl⟩

/-- C4 counterexample: the claim says every Bandit-rule-ID comment label
has exactly one corresponding code construct, but the comment block naming
B201 and B301 is followed by a single construct (`unsafe_pickle`), so the
simulated label B201 has no construct of its own. -/
theorem c4_counterexample :
    banditBlocks.all (fun b => b.ruleIds.length == b.items.length) = false ∧
    banditBlocks[8]? = some ⟨["B201", "B301"], ["unsafe_pickle"]⟩ :=
  ⟨rfl, rfl⟩

/-- C4 (amended): the fixture is a list of 33 labeled blocks, and every
block of rule-ID labels is followed by at least one code construct — but
not exactly one construct per label: the simulated labels (B201, B308,
B610, B611) share their block with another rule, the B105-B107 block holds
four constructs, and the B110 and B112 blocks each include a helper
function. -/
theorem c4_every_block_has_a_construct :
    banditBlocks.all (fun b => !b.items.isEmpty) = true ∧
    banditBlocks.length = 33 :=
  ⟨rfl, rfl⟩

/-- C5: the fixture source file consists of exactly 228 lines. -/
theorem c5_fixture_has_228_lines : banditIssuesLines.length = 228 := rfl

/-- C6: the fixture maintains no module state: no function body contains a
`global` declaration (the only way a Python function can rebind a
module-level name), and the module-level constants `PASSWORD` and
`API_KEY` are each bound exactly once, to their hard-coded values, so
every operation of the file leaves them unchanged. -/
theorem c6_no_module_state :
    banditFuncs.all (fun f => !stmtsHaveGlobal f.body) = true ∧
    (banditEntries.filter fun e =>
        match e with
        | .assignE t _ => t == "PASSWORD"
        | _ => false)
      = [.assignE "PASSWORD" "\"super_secret_password123\""] ∧
    (banditEntries.filter fun e =>
        match e with
        | .assignE t _ => t == "API_KEY"
        | _ => false)
      = [.assignE "API_KEY" "\"sk-1234567890abcdef\""] ∧
    PASSWORD = "super_secret_password123" ∧
    API_KEY = "sk-1234567890abcdef" :=
  ⟨rfl, rfl, rfl, rfl, rfl⟩

/-- C7 counterexample: the claim says each function makes at most one
tempfile/socket/subprocess call per invocation, but `bind_all_interfaces`
makes two socket calls: it creates a socket and then binds it. -/
theorem c7_counterexample :
    (bind_all_interfaces_effects.filter socketCall).length = 2 ∧
    (bind_all_interfaces_effects.filter tssCall).length = 2 :=
  ⟨rfl, rfl⟩

/-- C7 (amended): every fixture function except `bind_all_interfaces`
makes at most one tempfile, socket, or subprocess call per invocation and
coordinates no concurrent execution; `bind_all_interfaces` makes exactly
two socket calls (creation, then bind) and also starts no thread. -/
theorem c7_single_shot_except_bind :
    assert_usage_effects.all (fun e => !spawnsThread e) = true ∧
    singleShot assert_usage_effects = true ∧
    (∀ c : String, singleShot (exec_usage_effects c) = true) ∧
    singleShot bad_permissions_effects = true ∧
    singleShot connect_db_effects = true ∧
    singleShot login_effects = true ∧
    singleShot use_tmp_effects = true ∧
    singleShot ignore_errors_effects = true ∧
    singleShot risky_operation_effects = true ∧
    singleShot continue_on_error_effects = true ∧
    singleShot process_effects = true ∧
    singleShot unsafe_pickle_effects = true ∧
    singleShot weak_hash_effects = true ∧
    singleShot weak_cipher_effects = true ∧
    singleShot insecure_cipher_mode_effects = true ∧
    singleShot insecure_temp_effects = true ∧
    (∀ u : String, singleShot (eval_usage_effects u) = true) ∧
    (∀ u : String, singleShot (url_open_effects u) = true) ∧
    singleShot insecure_random_effects = true ∧
    singleShot use_telnet_effects = true ∧
    singleShot parse_xml_effects = true ∧
    singleShot use_ftp_effects = true ∧
    singleShot insecure_ssl_effects = true ∧
    singleShot more_weak_hashes_effects = true ∧
    singleShot insecure_request_effects = true ∧
    singleShot unsafe_yaml_effects = true ∧
    (∀ h : String, singleShot (ssh_command_effects h) = true) ∧
    (∀ u : String, singleShot (shell_injection_effects u) = true) ∧
    (∀ c : String, singleShot (subprocess_call_effects c) = true) ∧
    (∀ c : String, singleShot (os_system_call_effects c) = true) ∧
    (∀ c : String, singleShot (popen_shell_effects c) = true) ∧
    singleShot partial_path_exec_effects = true ∧
    singleShot sql_injection_effects = true ∧
    singleShot wildcard_injection_effects = true ∧
    singleShot jinja_template_effects = true ∧
    singleShot mako_template_effects = true ∧
    (bind_all_interfaces_effects.filter socketCall).length = 2 ∧
    bind_all_interfaces_effects.all (fun e => !spawnsThread e) = true :=
  ⟨rfl, rfl, fun _ => rfl, rfl, rfl, rfl, rfl, rfl, rfl, rfl, rfl, rfl, rfl,
   rfl, rfl, rfl, fun _ => rfl, fun _ => rfl, rfl, rfl, rfl, rfl, rfl, rfl,
   rfl, rfl, fun _ => rfl, fun _ => rfl, fun _ => rfl, fun _ => rfl,
   fun _ => rfl, rfl, rfl, rfl, rfl, rfl, rfl, rfl⟩

/-- C8: `assert_usage` returns its input unchanged whenever the input is
not `None`, and raises `AssertionError` (with message "Input required") if
and only if the input is `None`. -/
theorem c8_assert_usage_spec {α : Type} (user_input : Option α) :
    (user_input ≠ none → assert_usage user_input = Except.ok user_input) ∧
    (assert_usage user_input
        = Except.error (PyExc.assertionError "Input required")
      ↔ user_input = none) := by
  cases user_input <;> simp [assert_usage]

/-- C8 witness: instantiating the specification at `some 0` and `none`. -/
theorem c8_assert_usage_spec_witness :
    assert_usage (some 0) = Except.ok (some 0) ∧
    assert_usage (none : Option Nat)
      = Except.error (PyExc.assertionError "Input required") :=
  ⟨(c8_assert_usage_spec (some 0)).1 (by simp),
   (c8_assert_usage_spec (none : Option Nat)).2.mpr rfl⟩

/-- C9: for every callee `process` and every finite list `items`,
`continue_on_error` attempts `process` on each element in list order,
swallows every exception `process` raises (continuing with the next
element), and returns `None`. -/
theorem c9_continue_on_error_spec {α β : Type}
    (process : α → Except PyExc β) (items : List α) :
    continue_on_error process items = (items, Except.ok ()) := by
  induction items with
  | nil => rfl
  | cons item rest ih =>
      cases h : process item <;> simp [continue_on_error, h, ih]

/-- C10: `sql_injection` returns exactly the string
`"SELECT * FROM users WHERE id = "` concatenated with its argument; the
argument appears verbatim (character for character) as the suffix of the
result, with no quoting or escaping applied. -/
theorem c10_sql_injection_concat (user_id : String) :
    sql_injection user_id = "SELECT * FROM users WHERE id = " ++ user_id ∧
    (sql_injection user_id).data
      = "SELECT * FROM users WHERE id = ".data ++ user_id.data := by
  cases user_id
  exact ⟨rfl, rfl⟩

end VibeCheck
